import Mathlib

/-!
Verification development for a graceful-restart HTTP server (package
`gracehttp`, file `server.go`).  The Go code is shallowly embedded:

* pure fragments (environment construction, signal dispatch decisions)
  become Lean functions;
* stateful fragments become explicit state passing over small state
  structures (`RouterState` for the signal-handling goroutine together
  with the unbuffered `shutdownChan`, `SrvState` for the `Server`
  struct fields touched by listener acquisition and TLS setup);
* calls into the operating system / standard library (`net.Listen`,
  `net.FileListener`, `tls.LoadX509KeyPair`, `syscall.StartProcess`,
  `http.Server.Shutdown`, `http.Server.Serve`) are parameters giving
  the outcome the environment would return;
* Go's fallible calls return `Except`, and a Go runtime panic is
  modelled as the distinguished `GoOutcome.crash` constructor, kept
  apart from an ordinary returned error value.
-/

deriving instance DecidableEq for Except

namespace Gracehttp

/-- `GRACEFUL_ENVIRON_KEY` from server.go line 18. -/
def GRACEFUL_ENVIRON_KEY : String := "IS_GRACEFUL"

/-- `GRACEFUL_ENVIRON_STRING` from server.go line 19: the key with value `1`. -/
def GRACEFUL_ENVIRON_STRING : String := GRACEFUL_ENVIRON_KEY ++ "=1"

/-- `GRACEFUL_LISTENER_FD` from server.go line 20: the fixed inherited slot. -/
def GRACEFUL_LISTENER_FD : Nat := 3

/-- The `isGraceful` computation in `NewServer` (server.go lines 38-41):
`os.Getenv(GRACEFUL_ENVIRON_KEY) != ""`.  The argument is the value of the
environment variable, `none` when the variable is unset. -/
def newServerIsGraceful (envValue : Option String) : Bool :=
  (envValue.getD "") != ""

/-- A marker entry in the sense of the specification: an environment entry
for the marker variable carrying any non-empty value (the spec says the
mere presence of a non-empty value switches graceful mode on, matching
`newServerIsGraceful`). -/
def isMarkerEntry (s : String) : Bool :=
  let p := (GRACEFUL_ENVIRON_KEY ++ "=").data
  (s.data.take p.length = p : Bool) && p.length < s.data.length

/-- The environment built for the successor process in `startNewProcess`
(server.go lines 193-200): the Go loop keeps every entry of `os.Environ()`
that is not literally `GRACEFUL_ENVIRON_STRING` and then appends
`GRACEFUL_ENVIRON_STRING` once.  The loop is exactly a filter followed by
a one-element append. -/
def successorEnv (environ : List String) : List String :=
  (environ.filter (fun value => value ≠ GRACEFUL_ENVIRON_STRING)) ++
    [GRACEFUL_ENVIRON_STRING]

/-- Outcome of a Go call, distinguishing a returned error value from a
runtime panic (which crashes the process instead of returning). -/
inductive GoOutcome (α : Type) where
  | ok (v : α)
  | err (msg : String)
  | crash (msg : String)
deriving DecidableEq, Repr

/-- `true` iff the outcome is an ordinary returned error value. -/
def GoOutcome.isErr {α : Type} : GoOutcome α → Bool
  | GoOutcome.err _ => true
  | _ => false

/-- `true` iff the outcome is a runtime panic. -/
def GoOutcome.isCrash {α : Type} : GoOutcome α → Bool
  | GoOutcome.crash _ => true
  | _ => false

/-- The dynamic value stored in the `srv.listener` field (`net.Listener`
interface).  On the fresh-bind path it is always a `*net.TCPListener`; on
the inherited-descriptor path `net.FileListener` may produce another
concrete type (e.g. `*net.UnixListener` when slot 3 holds a unix socket).
For a TCP listener, `fileFd` records what the `File()` call would return:
either an error or the duplicated descriptor number. -/
inductive GoListener where
  | tcp (fileFd : Except String Nat)
  | nonTCP (dynamicType : String)
deriving DecidableEq, Repr

/-- `true` iff the dynamic type is `*net.TCPListener`. -/
def GoListener.isTCP : GoListener → Bool
  | GoListener.tcp _ => true
  | GoListener.nonTCP _ => false

/-- `getTCPListenerFd` (server.go lines 220-226).  The Go body is
`srv.listener.(*net.TCPListener).File()`: a single-valued type assertion,
which panics (interface-conversion crash) when the dynamic type is not
`*net.TCPListener`; only the `File()` call's failure is returned as an
ordinary error. -/
def getTCPListenerFd : GoListener → GoOutcome Nat
  | GoListener.tcp (Except.ok fd) => GoOutcome.ok fd
  | GoListener.tcp (Except.error e) => GoOutcome.err e
  | GoListener.nonTCP t =>
      GoOutcome.crash
        ("interface conversion: net.Listener is " ++ t ++
          ", not *net.TCPListener")

/-- Environment-supplied outcomes consumed by `startNewProcess`: the
parent's `os.Environ()` and the result of `syscall.StartProcess` (the pid
on success). -/
structure SpawnWorld where
  environ : List String
  forkResult : Except String Nat
deriving DecidableEq, Repr

/-- What a call to `startNewProcess` produced: the Go return value (pid or
error, or a crash), and the environment handed to the spawned child —
`none` when no child process was created. -/
structure SpawnRecord where
  outcome : GoOutcome Nat
  childEnv : Option (List String)
deriving DecidableEq, Repr

/-- `startNewProcess` (server.go lines 187-218): extract the listener
descriptor (crash or error aborts with no child), build the successor
environment, then `syscall.StartProcess`; a spawn failure returns an error
and creates no child. -/
def startNewProcess (l : GoListener) (w : SpawnWorld) : SpawnRecord :=
  match getTCPListenerFd l with
  | GoOutcome.crash m => ⟨GoOutcome.crash m, none⟩
  | GoOutcome.err e =>
      ⟨GoOutcome.err ("failed to get socket file descriptor: " ++ e), none⟩
  | GoOutcome.ok _listenerFd =>
      let envs := successorEnv w.environ
      match w.forkResult with
      | Except.error e =>
          ⟨GoOutcome.err ("failed to forkexec: " ++ e), none⟩
      | Except.ok fork => ⟨GoOutcome.ok fork, some envs⟩

/-- The signals the channel of `handleSignals` can deliver (server.go lines
147-155 subscribe to the four named ones; `other` stands for any value that
falls into the `default` branch of the `switch`). -/
inductive Sig where
  | sigquit
  | sigint
  | sighup
  | sigterm
  | other
deriving DecidableEq, Repr

/-- One signal delivery together with the outcomes the environment would
produce while handling it: whether `startNewProcess` would succeed
(`spawnOk`) and whether `srv.Shutdown` would return nil (`drainOk`). -/
structure SigEvent where
  sig : Sig
  spawnOk : Bool
  drainOk : Bool
deriving DecidableEq, Repr

/-- `true` for the hangup-like and terminate-like signals (restart path). -/
def wantsRestart (e : SigEvent) : Bool :=
  e.sig = Sig.sighup || e.sig = Sig.sigterm

/-- `true` for the quit-like and interrupt-like signals (shutdown path). -/
def wantsShutdown (e : SigEvent) : Bool :=
  e.sig = Sig.sigquit || e.sig = Sig.sigint

/-- State of the signal-handling goroutine and the one-shot machinery it
shares with `Serve`: `shutdownChan` is an unbuffered channel on which
`Serve` performs exactly one receive (server.go line 117), modelled by
`receivers` (initially 1); a completed send increments `published` and
consumes a receiver; a send with no receiver left blocks the goroutine
forever (`blocked`).  `shutdownCalls` counts invocations of
`shutdownHTTPServer`, `spawnAttempts` counts invocations of
`startNewProcess`, and `serving` records whether the accept loop is still
accepting connections. -/
structure RouterState where
  shutdownCalls : Nat
  spawnAttempts : Nat
  published : Nat
  receivers : Nat
  blocked : Bool
  serving : Bool
deriving DecidableEq, Repr

/-- The initial state: `Serve` has started `handleSignals` and will perform
one receive on `shutdownChan`; nothing dispatched yet. -/
def initRouter : RouterState :=
  { shutdownCalls := 0, spawnAttempts := 0, published := 0,
    receivers := 1, blocked := false, serving := true }

/-- `shutdownHTTPServer` (server.go lines 177-184): calls `srv.Shutdown`
(which stops the accept loop); on success it sends `true` on the
unbuffered `shutdownChan` — the send completes only if the single receiver
in `Serve` is still waiting, otherwise the goroutine blocks on the send
forever; on a drain error it only logs and sends nothing. -/
def shutdownHTTPServer (s : RouterState) (drainOk : Bool) : RouterState :=
  let s := { s with shutdownCalls := s.shutdownCalls + 1, serving := false }
  if drainOk then
    if 0 < s.receivers then
      { s with published := s.published + 1, receivers := s.receivers - 1 }
    else
      { s with blocked := true }
  else s

/-- The `switch` dispatch for one received signal (server.go lines
159-173): quit-like/interrupt-like go straight to `shutdownHTTPServer`;
hangup-like/terminate-like first call `startNewProcess` and call
`shutdownHTTPServer` only when the spawn succeeded (a failed spawn only
logs and keeps serving); anything else hits the empty `default` branch. -/
def dispatchSignal (s : RouterState) (e : SigEvent) : RouterState :=
  match e.sig with
  | Sig.sigquit | Sig.sigint => shutdownHTTPServer s e.drainOk
  | Sig.sighup | Sig.sigterm =>
      let s := { s with spawnAttempts := s.spawnAttempts + 1 }
      if e.spawnOk then shutdownHTTPServer s e.drainOk else s
  | Sig.other => s

/-- The `for` loop of `handleSignals` (server.go lines 157-174) run over a
finite queue of deliveries.  The Go loop has no exit statement, so every
queued signal is consumed and dispatched — unless the goroutine is stuck
forever in a channel send (`blocked`), in which case it never reaches the
next receive. -/
def handleSignals (s : RouterState) : List SigEvent → RouterState
  | [] => s
  | e :: rest =>
      if s.blocked then s else handleSignals (dispatchSignal s e) rest

/-- `true` once the single receive in `Serve` (server.go line 117) has been
matched by a send, letting `Serve` return instead of waiting forever. -/
def serveWaitReleased (s : RouterState) : Bool :=
  s.published != 0

/-- How many times one dispatched delivery invokes `shutdownHTTPServer`:
once for a quit-like/interrupt-like signal, once for a
hangup-like/terminate-like signal whose spawn succeeds, never otherwise. -/
def dispatchWeight (e : SigEvent) : Nat :=
  if wantsShutdown e || (wantsRestart e && e.spawnOk) then 1 else 0

/-- A TLS certificate value (`tls.Certificate`): `zero` is Go's zero value,
which is what the multiple assignment on server.go line 93 stores when
`tls.LoadX509KeyPair` fails; `loaded` is the pair read from the given
files. -/
inductive Cert where
  | zero
  | loaded (certFile keyFile : String)
deriving DecidableEq, Repr

/-- The fields of `tls.Config` the code touches: `NextProtos` (`none`
models a nil slice) and `Certificates`. -/
structure TLSConfig where
  nextProtos : Option (List String)
  certificates : List Cert
deriving DecidableEq, Repr

/-- The value of `tls.NewListener(srv.listener, config)` (server.go line
103): a listener layered over the untouched plain listener, holding the
negotiated configuration. -/
structure TLSListener where
  underlying : GoListener
  cfg : TLSConfig
deriving DecidableEq, Repr

/-- The `Server` fields involved in listener acquisition and TLS setup
(server.go lines 24-35), plus two instrumentation counters for the OS
calls made: `bindCount` counts `net.Listen` calls and `fileCount` counts
`net.FileListener` reconstructions from the inherited slot. -/
structure SrvState where
  addr : String
  isGraceful : Bool
  listener : Option GoListener
  tlsListener : Option TLSListener
  tlsConfig : Option TLSConfig
  bindCount : Nat
  fileCount : Nat
deriving DecidableEq, Repr

/-- Outcomes the operating system would return to `getNetListener`:
`fileListener` is the result of `net.FileListener(os.NewFile(3, ""))` and
`tcpListen addr` the result of `net.Listen("tcp", addr)`. -/
structure NetWorld where
  fileListener : Except String GoListener
  tcpListen : String → Except String GoListener

/-- `getNetListener` (server.go lines 123-142): inherited-descriptor
reconstruction when `isGraceful`, fresh bind otherwise, each wrapping the
OS error text. -/
def getNetListener (w : NetWorld) (s : SrvState) (addr : String) :
    Except String GoListener :=
  if s.isGraceful then
    match w.fileListener with
    | Except.ok ln => Except.ok ln
    | Except.error e => Except.error ("net.FileListener error: " ++ e)
  else
    match w.tcpListen addr with
    | Except.ok ln => Except.ok ln
    | Except.error e => Except.error ("net.Listen error: " ++ e)

/-- `InitListener` (server.go lines 58-72): when `srv.listener` is already
set it is returned as is; otherwise the empty-address check runs first
(before any branching on `isGraceful`), then `getNetListener` performs the
one OS call (counted), and a successful result is cached in
`srv.listener`. -/
def InitListener (w : NetWorld) (s : SrvState) :
    Except String GoListener × SrvState :=
  match s.listener with
  | some ln => (Except.ok ln, s)
  | none =>
      if s.addr = "" then (Except.error "listen to nil addr", s)
      else
        let s1 := if s.isGraceful
          then { s with fileCount := s.fileCount + 1 }
          else { s with bindCount := s.bindCount + 1 }
        match getNetListener w s s.addr with
        | Except.error e => (Except.error e, s1)
        | Except.ok ln => (Except.ok ln, { s1 with listener := some ln })

/-- `NextProtos` default applied on server.go lines 87-89. -/
def defaultNextProtos : List String := ["h2", "http/1.1"]

/-- Models the pointer aliasing of server.go lines 83-86: when the caller
supplied `srv.TLSConfig`, the local `config` IS that object, so every
mutation through `config` is visible in the server's (caller's) field;
when no config was supplied, `config` is a fresh private object and
`srv.TLSConfig` stays nil. -/
def setTLSConfig (s : SrvState) (c : TLSConfig) : SrvState :=
  match s.tlsConfig with
  | some _ => { s with tlsConfig := some c }
  | none => s

/-- Server.go lines 83-89: the `config` variable after the nil-check on
`srv.TLSConfig` and the `NextProtos` defaulting — the caller's config when
one was supplied (aliased, see `setTLSConfig`), a fresh zero one
otherwise, with `NextProtos` set to the defaults exactly when it was
nil. -/
def configAfterDefaults (s : SrvState) : TLSConfig :=
  let cfg0 : TLSConfig :=
    match s.tlsConfig with
    | some c => c
    | none => { nextProtos := none, certificates := [] }
  if cfg0.nextProtos = none
    then { cfg0 with nextProtos := some defaultNextProtos }
    else cfg0

/-- `ListenAndServeTLS` (server.go lines 82-105).  `loadResult` is the
outcome of `tls.LoadX509KeyPair(certFile, keyFile)` and `serveResult` the
value the final `srv.Serve()` call would return.  Step by step, following
the source: take the caller's config or a fresh one and default
`NextProtos` if nil (`configAfterDefaults`); overwrite `Certificates` with
a one-element slice whose single entry is the loaded pair — or the zero
value when loading fails, in which case the error returns before
`InitListener` runs; acquire the plain listener; wrap it with
`tls.NewListener` into `srv.tlsListener`; serve. -/
def ListenAndServeTLS (loadResult : Except String Cert) (w : NetWorld)
    (serveResult : Except String Unit) (s : SrvState) :
    Except String Unit × SrvState :=
  let cfg1 := configAfterDefaults s
  match loadResult with
  | Except.error e =>
      (Except.error e, setTLSConfig s { cfg1 with certificates := [Cert.zero] })
  | Except.ok cert =>
      let cfg2 := { cfg1 with certificates := [cert] }
      let s1 := setTLSConfig s cfg2
      match InitListener w s1 with
      | (Except.error e, s2) => (Except.error e, s2)
      | (Except.ok ln, s2) =>
          (serveResult, { s2 with tlsListener := some ⟨ln, cfg2⟩ })

/-! Theorems.  Shared helper lemmas come first, then one theorem per
claim (with counterexamples and witnesses where applicable). -/

/-- The filter of server.go lines 194-199 drops every entry literally equal
to `GRACEFUL_ENVIRON_STRING`, and line 200 appends it back once, so the
exact marker string occurs exactly once in any successor environment. -/
theorem successorEnv_count_marker (environ : List String) :
    (successorEnv environ).count GRACEFUL_ENVIRON_STRING = 1 := by
  unfold successorEnv
  rw [List.count_append]
  have h0 : (environ.filter
      (fun value => value ≠ GRACEFUL_ENVIRON_STRING)).count
      GRACEFUL_ENVIRON_STRING = 0 := by
    rw [List.count_eq_zero]
    intro hmem
    have h := (List.mem_filter.mp hmem).2
    simp at h
  rw [h0]
  simp

/-- C1: the claim states that any pre-existing marker entry — any
environment entry for the marker variable with a non-empty value — is
stripped before the fresh marker is appended, so the marker occurs exactly
once.  Refuted: the filter on server.go line 196 compares against the
literal string `IS_GRACEFUL=1` only.  A parent started with
`IS_GRACEFUL=true` (which the program itself treats as graceful mode, cf.
`newServerIsGraceful`) spawns a successor whose environment contains two
marker entries: `IS_GRACEFUL=true` and `IS_GRACEFUL=1`. -/
theorem C1_counterexample :
    (startNewProcess (GoListener.tcp (Except.ok 4))
        ⟨["IS_GRACEFUL=true"], Except.ok 12345⟩).childEnv =
      some ["IS_GRACEFUL=true", "IS_GRACEFUL=1"] ∧
    ¬ ((["IS_GRACEFUL=true", "IS_GRACEFUL=1"] : List String).countP
        isMarkerEntry = 1) ∧
    isMarkerEntry "IS_GRACEFUL=true" = true := by
  refine ⟨rfl, by decide, by decide⟩

/-- C1 (amended): only entries literally equal to the canonical marker
string `IS_GRACEFUL=1` are stripped before the single fresh marker entry
is appended; hence in every environment handed to a restart-spawned
successor the canonical marker string occurs exactly once (in particular
successors of successors never accumulate duplicates), but a marker entry
carrying a different non-empty value is not stripped and survives
alongside it. -/
theorem C1_canonical_marker_once (l : GoListener) (w : SpawnWorld)
    (envs : List String)
    (h : (startNewProcess l w).childEnv = some envs) :
    envs.count GRACEFUL_ENVIRON_STRING = 1 := by
  unfold startNewProcess at h
  cases hfd : getTCPListenerFd l with
  | crash m => rw [hfd] at h; exact absurd h (by simp)
  | err e => rw [hfd] at h; exact absurd h (by simp)
  | ok fd =>
      rw [hfd] at h
      cases hf : w.forkResult with
      | error e => simp [hf] at h
      | ok pid =>
          simp [hf] at h
          rw [← h]
          exact successorEnv_count_marker w.environ

/-- Witness for `C1_canonical_marker_once` at a concrete spawn. -/
theorem C1_canonical_marker_once_witness :
    (["FOO=bar", "IS_GRACEFUL=1"] : List String).count
      GRACEFUL_ENVIRON_STRING = 1 :=
  C1_canonical_marker_once (GoListener.tcp (Except.ok 4))
    ⟨["FOO=bar", "IS_GRACEFUL=1"], Except.ok 99⟩
    ["FOO=bar", "IS_GRACEFUL=1"] (by decide)

/-- C4: the claim states that on a listener without an extractable
descriptor, `spawnSuccessor` returns an ordinary error value rather than
crashing.  Refuted: server.go line 221 uses a single-valued type assertion
`srv.listener.(*net.TCPListener)`, which panics on any other dynamic type
(e.g. the `*net.UnixListener` that `net.FileListener` yields when the
inherited slot holds a unix socket) instead of returning an error. -/
theorem C4_counterexample :
    (getTCPListenerFd (GoListener.nonTCP "*net.UnixListener")).isErr
      = false ∧
    (getTCPListenerFd (GoListener.nonTCP "*net.UnixListener")).isCrash
      = true := by
  exact ⟨rfl, rfl⟩

/-- C4 (amended): when the listener's dynamic type is not
`*net.TCPListener`, `startNewProcess` crashes with an interface-conversion
panic rather than returning an error value; an ordinary error is returned
only when the `File()` call on a TCP listener fails; in both cases no
successor process is spawned. -/
theorem C4_descriptor_extraction (t e : String) (w : SpawnWorld) :
    ((startNewProcess (GoListener.nonTCP t) w).outcome.isCrash = true ∧
      (startNewProcess (GoListener.nonTCP t) w).childEnv = none) ∧
    startNewProcess (GoListener.tcp (Except.error e)) w =
      ⟨GoOutcome.err ("failed to get socket file descriptor: " ++ e),
        none⟩ := by
  exact ⟨⟨rfl, rfl⟩, rfl⟩

/-- Witness for `C4_descriptor_extraction` at concrete listeners. -/
theorem C4_descriptor_extraction_witness :
    ((startNewProcess (GoListener.nonTCP "*net.UnixListener")
        ⟨["A=1"], Except.ok 7⟩).outcome.isCrash = true ∧
      (startNewProcess (GoListener.nonTCP "*net.UnixListener")
        ⟨["A=1"], Except.ok 7⟩).childEnv = none) ∧
    startNewProcess (GoListener.tcp (Except.error "fd limit"))
        ⟨["A=1"], Except.ok 7⟩ =
      ⟨GoOutcome.err
        ("failed to get socket file descriptor: " ++ "fd limit"), none⟩ :=
  C4_descriptor_extraction "*net.UnixListener" "fd limit"
    ⟨["A=1"], Except.ok 7⟩

/-- `shutdownHTTPServer` increments the invocation count, stops the accept
loop, never touches the spawn count, and moves `published`/`receivers`/
`blocked` only as the channel model dictates. -/
theorem shutdownHTTPServer_counts (s : RouterState) (drainOk : Bool) :
    (shutdownHTTPServer s drainOk).shutdownCalls = s.shutdownCalls + 1 ∧
    (shutdownHTTPServer s drainOk).spawnAttempts = s.spawnAttempts ∧
    (shutdownHTTPServer s drainOk).serving = false := by
  cases drainOk <;> by_cases h : 0 < s.receivers <;>
    simp [shutdownHTTPServer, h]

/-- A completed send consumes a receiver, so the sum
`published + receivers` is preserved by `shutdownHTTPServer`. -/
theorem shutdownHTTPServer_pubrecv (s : RouterState) (drainOk : Bool) :
    (shutdownHTTPServer s drainOk).published +
      (shutdownHTTPServer s drainOk).receivers =
    s.published + s.receivers := by
  cases drainOk <;> by_cases h : 0 < s.receivers <;>
    simp [shutdownHTTPServer, h]
  omega

/-- The sum `published + receivers` is preserved by one dispatch. -/
theorem dispatchSignal_pubrecv (s : RouterState) (e : SigEvent) :
    (dispatchSignal s e).published + (dispatchSignal s e).receivers =
    s.published + s.receivers := by
  unfold dispatchSignal
  cases e.sig <;> simp
  case sigquit => exact shutdownHTTPServer_pubrecv s e.drainOk
  case sigint => exact shutdownHTTPServer_pubrecv s e.drainOk
  case sighup =>
      split
      · exact shutdownHTTPServer_pubrecv _ e.drainOk
      · simp
  case sigterm =>
      split
      · exact shutdownHTTPServer_pubrecv _ e.drainOk
      · simp

/-- The sum `published + receivers` is preserved by the whole loop. -/
theorem handleSignals_pubrecv (events : List SigEvent) (s : RouterState) :
    (handleSignals s events).published +
      (handleSignals s events).receivers =
    s.published + s.receivers := by
  induction events generalizing s with
  | nil => rfl
  | cons e rest ih =>
      unfold handleSignals
      split
      · rfl
      · rw [ih (dispatchSignal s e), dispatchSignal_pubrecv]

/-- A dispatch whose drain fails publishes nothing, cannot block, and
advances the spawn / shutdown counters by exactly the dispatch weight. -/
theorem dispatchSignal_drainErr (s : RouterState) (e : SigEvent)
    (h : e.drainOk = false) :
    (dispatchSignal s e).blocked = s.blocked ∧
    (dispatchSignal s e).published = s.published ∧
    (dispatchSignal s e).spawnAttempts =
      s.spawnAttempts + (if wantsRestart e then 1 else 0) ∧
    (dispatchSignal s e).shutdownCalls =
      s.shutdownCalls + dispatchWeight e := by
  obtain ⟨sig, spawnOk, drainOk⟩ := e
  cases h
  cases sig <;> cases spawnOk <;>
    simp [dispatchSignal, shutdownHTTPServer, dispatchWeight,
      wantsRestart, wantsShutdown]

/-- C3: the dispatch of `handleSignals` follows the specified state
machine — a quit-like/interrupt-like signal invokes the Shutdown
Coordinator exactly once with no spawn attempt; a hangup-like/
terminate-like signal attempts exactly one spawn and invokes the Shutdown
Coordinator exactly when the spawn succeeded, a failed spawn leaving the
accept loop serving with no shutdown invoked; any other signal leaves the
state untouched. -/
theorem C3_signal_dispatch (s : RouterState) (e : SigEvent) :
    (wantsShutdown e = true →
      (dispatchSignal s e).shutdownCalls = s.shutdownCalls + 1 ∧
      (dispatchSignal s e).spawnAttempts = s.spawnAttempts) ∧
    (wantsRestart e = true →
      (dispatchSignal s e).spawnAttempts = s.spawnAttempts + 1 ∧
      (dispatchSignal s e).shutdownCalls =
        s.shutdownCalls + (if e.spawnOk then 1 else 0) ∧
      (e.spawnOk = false →
        (dispatchSignal s e).serving = s.serving ∧
        (dispatchSignal s e).shutdownCalls = s.shutdownCalls)) ∧
    (e.sig = Sig.other → dispatchSignal s e = s) := by
  obtain ⟨sig, spawnOk, drainOk⟩ := e
  cases sig <;> cases spawnOk <;>
    simp [dispatchSignal, wantsRestart, wantsShutdown] <;>
    simp [shutdownHTTPServer_counts s drainOk,
      (shutdownHTTPServer_counts _ drainOk).1,
      (shutdownHTTPServer_counts _ drainOk).2.1]

/-- Witness for `C3_signal_dispatch`: a concrete interrupt-like dispatch
and a concrete failed-spawn restart dispatch. -/
theorem C3_signal_dispatch_witness :
    ((dispatchSignal initRouter ⟨Sig.sigint, false, true⟩).shutdownCalls =
        initRouter.shutdownCalls + 1 ∧
      (dispatchSignal initRouter ⟨Sig.sigint, false, true⟩).spawnAttempts =
        initRouter.spawnAttempts) ∧
    ((dispatchSignal initRouter ⟨Sig.sighup, false, true⟩).serving =
        initRouter.serving ∧
      (dispatchSignal initRouter ⟨Sig.sighup, false, true⟩).shutdownCalls =
        initRouter.shutdownCalls) :=
  ⟨(C3_signal_dispatch initRouter ⟨Sig.sigint, false, true⟩).1 rfl,
    ((C3_signal_dispatch initRouter ⟨Sig.sighup, false, true⟩).2.1
        rfl).2.2 rfl⟩

/-- C6: the claim states the signal-consumption loop exits after
dispatching a shutdown.  Refuted: the `for` loop on server.go lines
157-174 has no exit statement.  Concretely, after an interrupt-like signal
whose drain succeeds (shutdown dispatched and completion published), a
subsequently queued hangup-like signal is still consumed and dispatched:
it performs another spawn attempt and a second shutdown invocation, which
could not happen had the loop exited. -/
theorem C6_counterexample :
    (handleSignals initRouter
      [⟨Sig.sigint, false, true⟩, ⟨Sig.sighup, true, false⟩]).spawnAttempts
      = 1 ∧
    (handleSignals initRouter
      [⟨Sig.sigint, false, true⟩, ⟨Sig.sighup, true, false⟩]).shutdownCalls
      = 2 := by
  exact ⟨rfl, rfl⟩

/-- C6 (amended): the Signal Router's loop never exits; after dispatching
a shutdown it goes back to the channel receive, and every queued delivery
is consumed and dispatched (for as long as the goroutine is not stuck
forever in a send on `shutdownChan`): over any queue of deliveries whose
drains fail (so no send can stick), the spawn counter grows by the number
of restart-type signals and the shutdown counter by the total dispatch
weight, however many shutdown dispatches occurred along the way. -/
theorem C6_loop_never_exits (s : RouterState) (events : List SigEvent)
    (hb : s.blocked = false) (hd : ∀ e ∈ events, e.drainOk = false) :
    (handleSignals s events).spawnAttempts =
      s.spawnAttempts + events.countP wantsRestart ∧
    (handleSignals s events).shutdownCalls =
      s.shutdownCalls + (events.map dispatchWeight).sum := by
  induction events generalizing s with
  | nil => simp [handleSignals]
  | cons e rest ih =>
      have he : e.drainOk = false := hd e (List.mem_cons_self e rest)
      have hrest : ∀ x ∈ rest, x.drainOk = false :=
        fun x hx => hd x (List.mem_cons_of_mem e hx)
      have hstep := dispatchSignal_drainErr s e he
      unfold handleSignals
      rw [if_neg (by rw [hb]; exact Bool.false_ne_true)]
      have hih := ih (dispatchSignal s e) (by rw [hstep.1, hb]) hrest
      rw [hih.1, hih.2, hstep.2.2.1, hstep.2.2.2]
      constructor
      · rw [List.countP_cons]
        by_cases hr : wantsRestart e <;> simp [hr]
        omega
      · simp [List.map_cons, List.sum_cons]
        omega

/-- Witness for `C6_loop_never_exits` on a concrete two-signal queue. -/
theorem C6_loop_never_exits_witness :
    (handleSignals initRouter
      [⟨Sig.sigquit, false, false⟩, ⟨Sig.sigterm, true, false⟩]).spawnAttempts
      = initRouter.spawnAttempts +
        ([⟨Sig.sigquit, false, false⟩, ⟨Sig.sigterm, true, false⟩] :
          List SigEvent).countP wantsRestart ∧
    (handleSignals initRouter
      [⟨Sig.sigquit, false, false⟩, ⟨Sig.sigterm, true, false⟩]).shutdownCalls
      = initRouter.shutdownCalls +
        (([⟨Sig.sigquit, false, false⟩, ⟨Sig.sigterm, true, false⟩] :
          List SigEvent).map dispatchWeight).sum :=
  C6_loop_never_exits initRouter
    [⟨Sig.sigquit, false, false⟩, ⟨Sig.sigterm, true, false⟩]
    rfl (by decide)

/-- C2: the claim states that a redundant second publication of the
completion signal must not deadlock or panic.  Refuted: `shutdownChan` is
an unbuffered channel whose only receive is the single one in `Serve`
(server.go line 117), and `shutdownHTTPServer` sends unconditionally on
drain success (line 182) with no guard.  After two interrupt-like signals
whose drains both succeed, the second invocation's send finds no receiver
and blocks the Signal Router goroutine forever — a deadlock. -/
theorem C2_counterexample :
    (handleSignals initRouter
      [⟨Sig.sigint, false, true⟩, ⟨Sig.sigint, false, true⟩]).blocked
      = true := by
  exact rfl

/-- C2 (amended): the completion signal is published at most once per
process lifetime — over any queue of deliveries the number of completed
publications never exceeds the one receive `Serve` posts — and on the
first successful drain it is published exactly once; but the code does not
guard redundant publication: a second shutdown invocation after the
completion signal has been consumed blocks forever on the unbuffered
channel send, deadlocking the Signal Router goroutine (it does not
panic). -/
theorem C2_publish_once :
    (∀ events : List SigEvent,
      (handleSignals initRouter events).published ≤ 1) ∧
    (handleSignals initRouter
      [⟨Sig.sigquit, false, true⟩, ⟨Sig.sigquit, false, true⟩]).published
      = 1 ∧
    (handleSignals initRouter
      [⟨Sig.sigquit, false, true⟩, ⟨Sig.sigquit, false, true⟩]).blocked
      = true := by
  refine ⟨fun events => ?_, rfl, rfl⟩
  have h := handleSignals_pubrecv events initRouter
  have h0 : initRouter.published = 0 := rfl
  have h1 : initRouter.receivers = 1 := rfl
  omega

/-- Witness for `C2_publish_once` on a concrete delivery queue. -/
theorem C2_publish_once_witness :
    (handleSignals initRouter
      [⟨Sig.sigquit, false, true⟩, ⟨Sig.sigquit, false, true⟩,
        ⟨Sig.sighup, true, true⟩]).published ≤ 1 :=
  C2_publish_once.1
    [⟨Sig.sigquit, false, true⟩, ⟨Sig.sigquit, false, true⟩,
      ⟨Sig.sighup, true, true⟩]

/-- C7: on a drain error `shutdownHTTPServer` only logs and publishes
nothing (server.go lines 178-179), so when every drain fails the single
receive in `Serve` is never matched and the post-serve wait never
unblocks: the process intentionally hangs instead of exiting. -/
theorem C7_drain_error_hangs (events : List SigEvent)
    (hd : ∀ e ∈ events, e.drainOk = false) :
    (handleSignals initRouter events).published = 0 ∧
    serveWaitReleased (handleSignals initRouter events) = false := by
  have hpub : ∀ (s : RouterState) (evs : List SigEvent),
      (∀ e ∈ evs, e.drainOk = false) →
      (handleSignals s evs).published = s.published := by
    intro s evs
    induction evs generalizing s with
    | nil => intro _; rfl
    | cons e rest ih =>
        intro hall
        unfold handleSignals
        split
        · rfl
        · rw [ih (dispatchSignal s e)
              (fun x hx => hall x (List.mem_cons_of_mem e hx)),
            (dispatchSignal_drainErr s e
              (hall e (List.mem_cons_self e rest))).2.1]
  have h0 : (handleSignals initRouter events).published = 0 :=
    hpub initRouter events hd
  refine ⟨h0, ?_⟩
  simp [serveWaitReleased, h0]

/-- Witness for `C7_drain_error_hangs` on a concrete delivery queue. -/
theorem C7_drain_error_hangs_witness :
    (handleSignals initRouter [⟨Sig.sigquit, false, false⟩]).published = 0 ∧
    serveWaitReleased
      (handleSignals initRouter [⟨Sig.sigquit, false, false⟩]) = false :=
  C7_drain_error_hangs [⟨Sig.sigquit, false, false⟩] (by decide)

/-- A successful `InitListener` call leaves the returned listener cached in
the `srv.listener` field (server.go line 68 or the early return of line
59). -/
theorem InitListener_ok_listener {w : NetWorld} {s s' : SrvState}
    {ln : GoListener} (h : InitListener w s = (Except.ok ln, s')) :
    s'.listener = some ln := by
  unfold InitListener at h
  cases hs : s.listener with
  | some l0 =>
      rw [hs] at h
      simp at h
      rw [← h.2, hs, h.1]
  | none =>
      rw [hs] at h
      by_cases ha : s.addr = ""
      · simp [ha] at h
      · rw [if_neg ha] at h
        cases hg : getNetListener w s s.addr with
        | error e => rw [hg] at h; simp at h
        | ok l =>
            rw [hg] at h
            simp at h
            rw [← h.2]
            by_cases hgr : s.isGraceful <;> simp [hgr, h.1]

/-- `InitListener` touches only `listener` and the call counters; the TLS
fields pass through unchanged. -/
theorem InitListener_tls_frame (w : NetWorld) (s : SrvState) :
    (InitListener w s).2.tlsConfig = s.tlsConfig ∧
    (InitListener w s).2.tlsListener = s.tlsListener := by
  unfold InitListener
  cases hs : s.listener with
  | some l0 => simp
  | none =>
      by_cases ha : s.addr = ""
      · simp [ha]
      · rw [if_neg ha]
        cases hg : getNetListener w s s.addr <;>
          by_cases hgr : s.isGraceful <;> simp [hgr]

/-- `setTLSConfig` models a write through the aliased config pointer: it
can change only the `tlsConfig` field. -/
theorem setTLSConfig_frame (s : SrvState) (c : TLSConfig) :
    (setTLSConfig s c).listener = s.listener ∧
    (setTLSConfig s c).tlsListener = s.tlsListener ∧
    (setTLSConfig s c).bindCount = s.bindCount ∧
    (setTLSConfig s c).fileCount = s.fileCount := by
  unfold setTLSConfig
  cases s.tlsConfig <;> simp

/-- When the caller supplied a config, `setTLSConfig` stores the mutated
object in the server's field (the alias makes the write visible there). -/
theorem setTLSConfig_some {s : SrvState} {c0 : TLSConfig}
    (h : s.tlsConfig = some c0) (c : TLSConfig) :
    (setTLSConfig s c).tlsConfig = some c := by
  unfold setTLSConfig
  rw [h]

/-- C5: the claim states the empty-address check applies only on the
fresh-bind path and that graceful-mode acquisition needs no bind address.
Refuted: the check on server.go lines 60-62 runs before the code branches
on `isGraceful` (inside `getNetListener`).  Concretely, a graceful-mode
server with an empty address and a perfectly valid inherited descriptor in
the slot gets `listen to nil addr` back and performs no reconstruction
(the state, counters included, is returned untouched). -/
theorem C5_counterexample :
    InitListener
      ⟨Except.ok (GoListener.tcp (Except.ok 7)),
        fun _ => Except.error "unused"⟩
      ⟨"", true, none, none, none, 0, 0⟩ =
    (Except.error "listen to nil addr",
      ⟨"", true, none, none, none, 0, 0⟩) := by
  exact rfl

/-- C5 (amended): the empty-address check runs on both paths: even when
`isGraceful` is true, an empty bind address yields the `InvalidAddressError`
and no descriptor reconstruction takes place; with any non-empty address
the graceful path reconstructs the listener from the fixed inherited slot
with no fresh bind (the address value is never used for it). -/
theorem C5_address_check_both_paths (w : NetWorld) (s : SrvState)
    (hl : s.listener = none) (hg : s.isGraceful = true) :
    (s.addr = "" →
      InitListener w s = (Except.error "listen to nil addr", s)) ∧
    (s.addr ≠ "" →
      (InitListener w s).2.bindCount = s.bindCount ∧
      (InitListener w s).2.fileCount = s.fileCount + 1 ∧
      ∀ ln, w.fileListener = Except.ok ln →
        (InitListener w s).1 = Except.ok ln ∧
        (InitListener w s).2.listener = some ln) := by
  constructor
  · intro ha
    unfold InitListener
    rw [hl]
    simp [ha]
  · intro ha
    unfold InitListener
    rw [hl, if_neg ha]
    have hget : getNetListener w s s.addr =
        match w.fileListener with
        | Except.ok ln => Except.ok ln
        | Except.error e =>
            Except.error ("net.FileListener error: " ++ e) := by
      unfold getNetListener
      rw [hg]
      simp
    cases hw : w.fileListener with
    | ok ln0 =>
        rw [hget, hw]
        simp [hg]
    | error e =>
        rw [hget, hw]
        simp [hg]

/-- Witness for `C5_address_check_both_paths`: a graceful server with a
non-empty address reconstructs from the slot without binding. -/
theorem C5_address_check_both_paths_witness :
    (InitListener
      ⟨Except.ok (GoListener.tcp (Except.ok 7)), fun _ => Except.error "u"⟩
      ⟨"127.0.0.1:9090", true, none, none, none, 0, 0⟩).2.bindCount = 0 ∧
    (InitListener
      ⟨Except.ok (GoListener.tcp (Except.ok 7)), fun _ => Except.error "u"⟩
      ⟨"127.0.0.1:9090", true, none, none, none, 0, 0⟩).1 =
      Except.ok (GoListener.tcp (Except.ok 7)) := by
  have h := (C5_address_check_both_paths
    ⟨Except.ok (GoListener.tcp (Except.ok 7)), fun _ => Except.error "u"⟩
    ⟨"127.0.0.1:9090", true, none, none, none, 0, 0⟩ rfl rfl).2
    (by decide)
  exact ⟨h.1, (h.2.2 (GoListener.tcp (Except.ok 7)) rfl).1⟩

/-- C8: listener acquisition is idempotent.  Once one call to
`InitListener` has succeeded, every later call — under ANY state of the
outside world, so no OS bind or reconstruction can even be consulted —
returns the very same listener and leaves the server state (counters
included) untouched. -/
theorem C8_idempotent (w wfollow : NetWorld) (s s' : SrvState)
    (ln : GoListener) (h : InitListener w s = (Except.ok ln, s')) :
    InitListener wfollow s' = (Except.ok ln, s') := by
  have hl := InitListener_ok_listener h
  unfold InitListener
  rw [hl]

/-- Witness for `C8_idempotent`: after a concrete cold-start bind, a second
call under a world whose every OS call would fail still returns the cached
listener unchanged. -/
theorem C8_idempotent_witness :
    InitListener ⟨Except.error "no slot", fun _ => Except.error "busy"⟩
      ⟨"127.0.0.1:8080", false, some (GoListener.tcp (Except.ok 4)),
        none, none, 1, 0⟩ =
    (Except.ok (GoListener.tcp (Except.ok 4)),
      ⟨"127.0.0.1:8080", false, some (GoListener.tcp (Except.ok 4)),
        none, none, 1, 0⟩) :=
  C8_idempotent
    ⟨Except.error "x", fun _ => Except.ok (GoListener.tcp (Except.ok 4))⟩
    ⟨Except.error "no slot", fun _ => Except.error "busy"⟩
    ⟨"127.0.0.1:8080", false, none, none, none, 0, 0⟩
    ⟨"127.0.0.1:8080", false, some (GoListener.tcp (Except.ok 4)),
      none, none, 1, 0⟩
    (GoListener.tcp (Except.ok 4))
    (by decide)

/-- When the caller's config carries an explicit negotiation list, the
defaulting step of server.go lines 87-89 leaves the config untouched. -/
theorem configAfterDefaults_explicit {s : SrvState} {c : TLSConfig}
    {ps : List String} (hc : s.tlsConfig = some c)
    (hp : c.nextProtos = some ps) :
    configAfterDefaults s = c := by
  unfold configAfterDefaults
  rw [hc]
  simp [hp]

/-- When no negotiation list was supplied (no config at all, or a config
with a nil list), the defaulting step installs `defaultNextProtos`. -/
theorem configAfterDefaults_absent {s : SrvState}
    (h : s.tlsConfig = none ∨
      ∃ c, s.tlsConfig = some c ∧ c.nextProtos = none) :
    (configAfterDefaults s).nextProtos = some defaultNextProtos := by
  unfold configAfterDefaults
  rcases h with h | ⟨c, hc, hp⟩
  · rw [h]
    rfl
  · rw [hc]
    simp [hp]

/-- The config after defaulting, written out for a caller-supplied `c`. -/
theorem configAfterDefaults_of_some {s : SrvState} {c : TLSConfig}
    (hc : s.tlsConfig = some c) :
    configAfterDefaults s =
      { nextProtos := if c.nextProtos = none
          then some defaultNextProtos else c.nextProtos,
        certificates := c.certificates } := by
  obtain ⟨np, certs⟩ := c
  unfold configAfterDefaults
  rw [hc]
  cases np <;> simp

/-- C9: the TLS start operation applies the protocol-negotiation defaults
only when the caller supplied no explicit negotiation list (an explicit
list passes through untouched), and the wrapping layers over the plain
listener without closing or replacing it: whenever a secure listener was
installed, the server's plain-listener field still holds exactly the
listener the secure one wraps (and the model performs no close operation
anywhere on this path). -/
theorem C9_tls_wrap (cert : Cert) (w : NetWorld) (sr : Except String Unit)
    (s : SrvState) (ht : s.tlsListener = none) :
    (∀ c ps, s.tlsConfig = some c → c.nextProtos = some ps →
      ∀ t, (ListenAndServeTLS (Except.ok cert) w sr s).2.tlsListener
          = some t →
        t.cfg.nextProtos = some ps) ∧
    ((s.tlsConfig = none ∨
        ∃ c, s.tlsConfig = some c ∧ c.nextProtos = none) →
      ∀ t, (ListenAndServeTLS (Except.ok cert) w sr s).2.tlsListener
          = some t →
        t.cfg.nextProtos = some defaultNextProtos) ∧
    (∀ t, (ListenAndServeTLS (Except.ok cert) w sr s).2.tlsListener
        = some t →
      (ListenAndServeTLS (Except.ok cert) w sr s).2.listener
        = some t.underlying) := by
  have hout : ListenAndServeTLS (Except.ok cert) w sr s =
      (match InitListener w (setTLSConfig s
          { configAfterDefaults s with certificates := [cert] }) with
       | (Except.error e, s2) => (Except.error e, s2)
       | (Except.ok ln, s2) =>
          (sr, { s2 with tlsListener := some ⟨ln,
            { configAfterDefaults s with certificates := [cert] }⟩ })) := rfl
  rcases hinit : InitListener w (setTLSConfig s
      { configAfterDefaults s with certificates := [cert] }) with ⟨res, s2⟩
  cases res with
  | error e =>
      rw [hinit] at hout
      have hfr : s2.tlsListener = none := by
        have h1 := (InitListener_tls_frame w (setTLSConfig s
          { configAfterDefaults s with certificates := [cert] })).2
        rw [hinit] at h1
        rw [h1, (setTLSConfig_frame s _).2.1, ht]
      refine ⟨?_, ?_, ?_⟩
      · intro c ps _ _ t htl
        rw [hout] at htl
        simp only at htl
        rw [hfr] at htl
        exact absurd htl (by simp)
      · intro _ t htl
        rw [hout] at htl
        simp only at htl
        rw [hfr] at htl
        exact absurd htl (by simp)
      · intro t htl
        rw [hout] at htl
        simp only at htl
        rw [hfr] at htl
        exact absurd htl (by simp)
  | ok ln =>
      rw [hinit] at hout
      have hln : s2.listener = some ln := InitListener_ok_listener hinit
      refine ⟨?_, ?_, ?_⟩
      · intro c ps hc hp t htl
        rw [hout] at htl
        simp only at htl
        simp at htl
        rw [← htl]
        simp [configAfterDefaults_explicit hc hp, hp]
      · intro habs t htl
        rw [hout] at htl
        simp only at htl
        simp at htl
        rw [← htl]
        simp [configAfterDefaults_absent habs]
      · intro t htl
        rw [hout] at htl
        simp only at htl
        simp at htl
        rw [hout]
        simp only
        rw [← htl]
        simpa using hln

/-- Witness for `C9_tls_wrap`: a concrete caller-supplied negotiation
list survives, and the plain listener is still in place underneath the
secure one. -/
theorem C9_tls_wrap_witness :
    (ListenAndServeTLS
      (Except.ok (Cert.loaded "c.pem" "k.pem"))
      ⟨Except.error "n", fun _ => Except.ok (GoListener.tcp (Except.ok 5))⟩
      (Except.ok ())
      ⟨"127.0.0.1:443", false, none, none,
        some ⟨some ["myproto"], []⟩, 0, 0⟩).2.listener =
      some (GoListener.tcp (Except.ok 5)) ∧
    (⟨GoListener.tcp (Except.ok 5),
        ⟨some ["myproto"], [Cert.loaded "c.pem" "k.pem"]⟩⟩ :
      TLSListener).cfg.nextProtos = some ["myproto"] :=
  ⟨((C9_tls_wrap (Cert.loaded "c.pem" "k.pem")
      ⟨Except.error "n", fun _ => Except.ok (GoListener.tcp (Except.ok 5))⟩
      (Except.ok ())
      ⟨"127.0.0.1:443", false, none, none,
        some ⟨some ["myproto"], []⟩, 0, 0⟩ rfl).2.2
      ⟨GoListener.tcp (Except.ok 5),
        ⟨some ["myproto"], [Cert.loaded "c.pem" "k.pem"]⟩⟩ (by decide)),
    ((C9_tls_wrap (Cert.loaded "c.pem" "k.pem")
      ⟨Except.error "n", fun _ => Except.ok (GoListener.tcp (Except.ok 5))⟩
      (Except.ok ())
      ⟨"127.0.0.1:443", false, none, none,
        some ⟨some ["myproto"], []⟩, 0, 0⟩ rfl).1
      ⟨some ["myproto"], []⟩ ["myproto"] rfl rfl
      ⟨GoListener.tcp (Except.ok 5),
        ⟨some ["myproto"], [Cert.loaded "c.pem" "k.pem"]⟩⟩ (by decide))⟩

/-- C10: the caller-owned TLS configuration object is mutated in place —
after the call the server's aliased config field holds the caller's
object with its certificate list overwritten by the loaded pair (the Go
zero certificate when loading failed) and its negotiation list set to the
defaults exactly when it was absent; no private copy shields the caller.
Certificate loading happens before listener acquisition, so a load
failure returns with the listener field, the bind counter and the
reconstruction counter untouched — no socket is bound. -/
theorem C10_caller_config_mutated (w : NetWorld) (sr : Except String Unit)
    (c : TLSConfig) (s : SrvState) (hc : s.tlsConfig = some c) :
    (∀ e : String,
      (ListenAndServeTLS (Except.error e) w sr s).1 = Except.error e ∧
      (ListenAndServeTLS (Except.error e) w sr s).2.listener = s.listener ∧
      (ListenAndServeTLS (Except.error e) w sr s).2.bindCount
        = s.bindCount ∧
      (ListenAndServeTLS (Except.error e) w sr s).2.fileCount
        = s.fileCount ∧
      (ListenAndServeTLS (Except.error e) w sr s).2.tlsConfig =
        some { nextProtos := if c.nextProtos = none
                 then some defaultNextProtos else c.nextProtos,
               certificates := [Cert.zero] }) ∧
    (∀ cert : Cert,
      (ListenAndServeTLS (Except.ok cert) w sr s).2.tlsConfig =
        some { nextProtos := if c.nextProtos = none
                 then some defaultNextProtos else c.nextProtos,
               certificates := [cert] }) := by
  constructor
  · intro e
    have hout : ListenAndServeTLS (Except.error e) w sr s =
        (Except.error e, setTLSConfig s
          { configAfterDefaults s with certificates := [Cert.zero] }) := rfl
    rw [hout]
    have hfr := setTLSConfig_frame s
      { configAfterDefaults s with certificates := [Cert.zero] }
    refine ⟨rfl, hfr.1, hfr.2.2.1, hfr.2.2.2, ?_⟩
    rw [setTLSConfig_some hc, configAfterDefaults_of_some hc]
  · intro cert
    have hout : ListenAndServeTLS (Except.ok cert) w sr s =
        (match InitListener w (setTLSConfig s
            { configAfterDefaults s with certificates := [cert] }) with
         | (Except.error e, s2) => (Except.error e, s2)
         | (Except.ok ln, s2) =>
            (sr, { s2 with tlsListener := some ⟨ln,
              { configAfterDefaults s with certificates := [cert] }⟩ })) :=
      rfl
    have hcfg : (InitListener w (setTLSConfig s
        { configAfterDefaults s with certificates := [cert] })).2.tlsConfig
        = some { configAfterDefaults s with certificates := [cert] } := by
      rw [(InitListener_tls_frame w _).1, setTLSConfig_some hc]
    rcases hinit : InitListener w (setTLSConfig s
        { configAfterDefaults s with certificates := [cert] }) with ⟨res, s2⟩
    rw [hinit] at hout hcfg
    cases res with
    | error e2 =>
        rw [hout]
        simp only at hcfg ⊢
        rw [hcfg, configAfterDefaults_of_some hc]
    | ok ln =>
        rw [hout]
        simp only at hcfg ⊢
        rw [hcfg, configAfterDefaults_of_some hc]

/-- Witness for `C10_caller_config_mutated`: a concrete caller config with
no negotiation list, and a failing certificate load — the error comes
back, no bind happened, and the caller's object now holds the defaulted
negotiation list and the zero certificate. -/
theorem C10_caller_config_mutated_witness :
    (ListenAndServeTLS (Except.error "bad cert")
      ⟨Except.error "n", fun _ => Except.ok (GoListener.tcp (Except.ok 5))⟩
      (Except.ok ())
      ⟨"127.0.0.1:443", false, none, none, some ⟨none, []⟩, 0, 0⟩).1
      = Except.error "bad cert" ∧
    (ListenAndServeTLS (Except.error "bad cert")
      ⟨Except.error "n", fun _ => Except.ok (GoListener.tcp (Except.ok 5))⟩
      (Except.ok ())
      ⟨"127.0.0.1:443", false, none, none, some ⟨none, []⟩, 0, 0⟩).2.bindCount
      = 0 ∧
    (ListenAndServeTLS (Except.error "bad cert")
      ⟨Except.error "n", fun _ => Except.ok (GoListener.tcp (Except.ok 5))⟩
      (Except.ok ())
      ⟨"127.0.0.1:443", false, none, none, some ⟨none, []⟩, 0, 0⟩).2.tlsConfig
      = some ⟨some defaultNextProtos, [Cert.zero]⟩ := by
  have h := (C10_caller_config_mutated
    ⟨Except.error "n", fun _ => Except.ok (GoListener.tcp (Except.ok 5))⟩
    (Except.ok ()) ⟨none, []⟩
    ⟨"127.0.0.1:443", false, none, none, some ⟨none, []⟩, 0, 0⟩
    rfl).1 "bad cert"
  exact ⟨h.1, h.2.2.1, by simpa using h.2.2.2.2⟩

end Gracehttp
